import Mathlib

/-!
Shallow embedding of the geometry engine of `src/server.ts` (a Skir-based
geometry RPC service).  JavaScript numbers are modelled as real numbers;
thrown exceptions are modelled with `Except String`; the wire structures
(`Point`, `Shape`, `MeasurementUnit`, `ShapeMetrics`, `TriangleInfo`, ...)
become Lean structures and inductive types.  Timestamps and the HTTP/RPC
plumbing are outside the embedded core.
-/

namespace GeometrySrv

noncomputable section

/-- Wire type `Point`: `{x: float, y: float}`. -/
structure Point where
  x : ℝ
  y : ℝ

/-- Wire enum-union `MeasurementUnit`: `METERS`, `FEET`, or `custom(factor)`. -/
inductive MeasurementUnit where
  | METERS : MeasurementUnit
  | FEET : MeasurementUnit
  | custom : ℝ → MeasurementUnit

/-- Wire type `Shape`: tagged union over triangle / circle / rectangle /
polygon.  The triangle variant carries a vertex *list* (the schema does not
pin the length; `calculateShapeMetrics` checks it at runtime). -/
inductive Shape where
  | triangle : List Point → Shape
  | circle : Point → ℝ → Shape
  | rectangle : Point → ℝ → ℝ → Shape
  | polygon : List Point → Shape

/-- Bounding box part of `ShapeMetrics`. -/
structure BoundingBox where
  minX : ℝ
  minY : ℝ
  maxX : ℝ
  maxY : ℝ

/-- Wire type `ShapeMetrics`. -/
structure ShapeMetrics where
  area : ℝ
  perimeter : ℝ
  centroid : Point
  boundingBox : BoundingBox

/-- Wire type `TriangleInfo`.  The classification flags are embedded as
propositions on the real side lengths. -/
structure TriangleInfo where
  sideA : ℝ
  sideB : ℝ
  sideC : ℝ
  isEquilateral : Prop
  isIsosceles : Prop
  isRightTriangle : Prop

/-- Wire type `DrawableShape`: `{id, geometry}`. -/
structure DrawableShape where
  id : String
  geometry : Shape

/-- Wire type `ShapeAnalysisResult`: `{shapeId, metrics, error}`. -/
structure ShapeAnalysisResult where
  shapeId : String
  metrics : ShapeMetrics
  error : Option String

/-- Wire enum `criterion` of `FindLargestShape`. -/
inductive LargestCriterion where
  | AREA : LargestCriterion
  | PERIMETER : LargestCriterion
  deriving DecidableEq

/-- Source function `distance(p1, p2)`: Euclidean distance. -/
noncomputable def distance (p1 p2 : Point) : ℝ :=
  Real.sqrt ((p1.x - p2.x) * (p1.x - p2.x) + (p1.y - p2.y) * (p1.y - p2.y))

/-- Source function `metersToFeet`. -/
def metersToFeet (meters : ℝ) : ℝ := meters * 3.28084

/-- Source function `squareMetersToSquareFeet`. -/
def squareMetersToSquareFeet (sqMeters : ℝ) : ℝ := sqMeters * 10.7639

/-- Source function `convertDistance(value, unit)`. -/
def convertDistance (value : ℝ) : MeasurementUnit → ℝ
  | MeasurementUnit.FEET => metersToFeet value
  | MeasurementUnit.custom factor => value * factor
  | MeasurementUnit.METERS => value

/-- Source function `convertArea(value, unit)`. -/
def convertArea (value : ℝ) : MeasurementUnit → ℝ
  | MeasurementUnit.FEET => squareMetersToSquareFeet value
  | MeasurementUnit.custom factor => value * factor * factor
  | MeasurementUnit.METERS => value

/-- Source function `calculateTriangleArea(a, b, c)`: Heron's formula. -/
noncomputable def calculateTriangleArea (a b c : ℝ) : ℝ :=
  let s := (a + b + c) / 2
  Real.sqrt (s * (s - a) * (s - b) * (s - c))

/-- The ascending sort of `[a, b, c]` performed by
`[a, b, c].sort((x, y) => x - y)` in `isRightTriangle`. -/
noncomputable def sort3 (a b c : ℝ) : ℝ × ℝ × ℝ :=
  if a ≤ b then
    if b ≤ c then (a, b, c)
    else if a ≤ c then (a, c, b)
    else (c, a, b)
  else
    if a ≤ c then (b, a, c)
    else if b ≤ c then (b, c, a)
    else (c, b, a)

/-- Source function `isRightTriangle(a, b, c)`: sort the sides ascending and compare
`side1² + side2²` with `hypotenuse²` up to `ε = 0.0001`. -/
noncomputable def isRightTriangle (a b c : ℝ) : Prop :=
  let s := sort3 a b c
  |s.1 * s.1 + s.2.1 * s.2.1 - s.2.2 * s.2.2| < 0.0001

/-- The signed shoelace sum of `calculatePolygonArea`'s loop:
`Σ_i (x_i·y_{i+1} − x_{i+1}·y_i)` with wrap-around indexing. -/
def shoelaceSum (points : List Point) : ℝ :=
  ((points.zip (points.rotate 1)).map (fun pq => pq.1.x * pq.2.y - pq.2.x * pq.1.y)).sum

/-- Source function `calculatePolygonArea(points)`: 0 for fewer than 3 points, else half the
absolute shoelace sum. -/
def calculatePolygonArea (points : List Point) : ℝ :=
  if points.length < 3 then 0 else |shoelaceSum points| / 2

/-- Source function `calculateCentroid(points)`: arithmetic mean of the points. -/
def calculateCentroid (points : List Point) : Point :=
  { x := (points.map Point.x).sum / points.length
    y := (points.map Point.y).sum / points.length }

/-- Source function `calculateBoundingBox(points)`: all-zero box for the empty list, else
min/max folds seeded with the first point. -/
noncomputable def calculateBoundingBox (points : List Point) : BoundingBox :=
  match points with
  | [] => { minX := 0, minY := 0, maxX := 0, maxY := 0 }
  | p0 :: _ =>
    points.foldl
      (fun acc p =>
        { minX := min acc.minX p.x, minY := min acc.minY p.y
          maxX := max acc.maxX p.x, maxY := max acc.maxY p.y })
      { minX := p0.x, minY := p0.y, maxX := p0.x, maxY := p0.y }

/-- Source function `rotatePoint(p, angle)`: CCW rotation about the origin. -/
noncomputable def rotatePoint (p : Point) (angle : ℝ) : Point :=
  { x := p.x * Real.cos angle - p.y * Real.sin angle
    y := p.x * Real.sin angle + p.y * Real.cos angle }

/-- Source function `scalePoint(p, scale)`. -/
def scalePoint (p : Point) (scale : ℝ) : Point :=
  { x := p.x * scale, y := p.y * scale }

/-- Source function `translatePoint(p, offset)`. -/
def translatePoint (p : Point) (offset : Point) : Point :=
  { x := p.x + offset.x, y := p.y + offset.y }

/-- Source function `transformPoint(p, translate, scale, rotate)`: scale, then rotate, then
translate, exactly as the three successive assignments in the source. -/
noncomputable def transformPoint (p : Point) (translate : Point) (scale rotate : ℝ) : Point :=
  translatePoint (rotatePoint (scalePoint p scale) rotate) translate

/-- Perimeter loop of the polygon branch of `calculateShapeMetrics`:
sum of consecutive vertex distances with wrap-around. -/
noncomputable def polygonPerimeter (vertices : List Point) : ℝ :=
  ((vertices.zip (vertices.rotate 1)).map (fun pq => distance pq.1 pq.2)).sum

/-- Source function `calculateShapeMetrics(shape, unit)`.  The triangle branch throws
`"Triangle must have exactly 3 vertices"` when the vertex list does not have
length 3; every other branch succeeds. -/
noncomputable def calculateShapeMetrics (shape : Shape) (unit : MeasurementUnit) :
    Except String ShapeMetrics :=
  match shape with
  | Shape.triangle vertices =>
    match vertices with
    | [v0, v1, v2] =>
      let a := distance v0 v1
      let b := distance v1 v2
      let c := distance v2 v0
      Except.ok
        { area := convertArea (calculateTriangleArea a b c) unit
          perimeter := convertDistance (a + b + c) unit
          centroid := calculateCentroid vertices
          boundingBox := calculateBoundingBox vertices }
    | _ => Except.error "Triangle must have exactly 3 vertices"
  | Shape.circle center radius =>
    Except.ok
      { area := convertArea (Real.pi * radius * radius) unit
        perimeter := convertDistance (2 * Real.pi * radius) unit
        centroid := calculateCentroid [center]
        boundingBox := calculateBoundingBox [center] }
  | Shape.rectangle topLeft width height =>
    let corners : List Point :=
      [topLeft, { x := topLeft.x + width, y := topLeft.y },
        { x := topLeft.x + width, y := topLeft.y + height },
        { x := topLeft.x, y := topLeft.y + height }]
    Except.ok
      { area := convertArea (width * height) unit
        perimeter := convertDistance (2 * (width + height)) unit
        centroid := calculateCentroid corners
        boundingBox := calculateBoundingBox corners }
  | Shape.polygon vertices =>
    Except.ok
      { area := convertArea (calculatePolygonArea vertices) unit
        perimeter := convertDistance (polygonPerimeter vertices) unit
        centroid := calculateCentroid vertices
        boundingBox := calculateBoundingBox vertices }

/-- The `ε = 0.0001` tolerance used throughout the classifier. -/
def epsilon : ℝ := 0.0001

/-- Source function `analyzeTriangle(vertexA, vertexB, vertexC)` (service method, minus the
timestamp): computes the three side lengths, throws
`"Invalid triangle: points are collinear"` when the triangle inequality
fails (non-strict `<=`), otherwise returns the classification flags together
with the metrics of the triangle shape in METERS. -/
noncomputable def analyzeTriangle (vertexA vertexB vertexC : Point) :
    Except String (TriangleInfo × ShapeMetrics) :=
  let sideA := distance vertexA vertexB
  let sideB := distance vertexB vertexC
  let sideC := distance vertexC vertexA
  if sideA + sideB ≤ sideC ∨ sideB + sideC ≤ sideA ∨ sideC + sideA ≤ sideB then
    Except.error "Invalid triangle: points are collinear"
  else
    let isEquilateral := |sideA - sideB| < epsilon ∧ |sideB - sideC| < epsilon
    let isIsosceles :=
      isEquilateral ∨ |sideA - sideB| < epsilon ∨ |sideB - sideC| < epsilon ∨
        |sideC - sideA| < epsilon
    let info : TriangleInfo :=
      { sideA := sideA, sideB := sideB, sideC := sideC
        isEquilateral := isEquilateral
        isIsosceles := isIsosceles
        isRightTriangle := isRightTriangle sideA sideB sideC }
    match calculateShapeMetrics (Shape.triangle [vertexA, vertexB, vertexC])
        MeasurementUnit.METERS with
    | Except.error e => Except.error e
    | Except.ok metrics => Except.ok (info, metrics)

/-- The all-default `ShapeMetrics.create<"partial">({})` stored for a failed
batch item. -/
def emptyMetrics : ShapeMetrics :=
  { area := 0, perimeter := 0, centroid := { x := 0, y := 0 }
    boundingBox := { minX := 0, minY := 0, maxX := 0, maxY := 0 } }

/-- One iteration of `batchAnalyze`'s loop body: try the item's metrics,
catch a failure into an inline error result. -/
noncomputable def analyzeOne (unit : MeasurementUnit) (ds : DrawableShape) :
    ShapeAnalysisResult :=
  match calculateShapeMetrics ds.geometry unit with
  | Except.ok m => { shapeId := ds.id, metrics := m, error := none }
  | Except.error e => { shapeId := ds.id, metrics := emptyMetrics, error := some e }

/-- Wire type `BatchAnalyzeResponse` minus the timestamp. -/
structure BatchAnalyzeResponse where
  results : List ShapeAnalysisResult
  totalArea : ℝ
  shapeCount : ℕ

/-- The `for ... try/catch` loop of `batchAnalyze`, as a left fold over the
`(results, totalArea)` accumulator. -/
noncomputable def batchStep (unit : MeasurementUnit)
    (acc : List ShapeAnalysisResult × ℝ) (ds : DrawableShape) :
    List ShapeAnalysisResult × ℝ :=
  match calculateShapeMetrics ds.geometry unit with
  | Except.ok m =>
    (acc.1 ++ [{ shapeId := ds.id, metrics := m, error := none }], acc.2 + m.area)
  | Except.error e =>
    (acc.1 ++ [{ shapeId := ds.id, metrics := emptyMetrics, error := some e }], acc.2)

/-- Source function `batchAnalyze(shapes, unit)` (service method, minus the timestamp). -/
noncomputable def batchAnalyze (shapes : List DrawableShape) (unit : MeasurementUnit) :
    BatchAnalyzeResponse :=
  let acc := shapes.foldl (batchStep unit) ([], 0)
  { results := acc.1, totalArea := acc.2, shapeCount := shapes.length }

/-- The shape-variant dispatch of `transformShape` (the `transformed` shape;
the shape union is closed here, so the defensive unknown-kind throw is
unrepresentable). -/
noncomputable def transformShape (shape : Shape) (translate : Point)
    (scale rotateRadians : ℝ) : Shape :=
  match shape with
  | Shape.triangle vertices =>
    Shape.triangle (vertices.map (fun v => transformPoint v translate scale rotateRadians))
  | Shape.circle center radius =>
    Shape.circle (transformPoint center translate scale rotateRadians) (radius * scale)
  | Shape.rectangle topLeft width height =>
    Shape.rectangle (transformPoint topLeft translate scale rotateRadians)
      (width * scale) (height * scale)
  | Shape.polygon vertices =>
    Shape.polygon (vertices.map (fun v => transformPoint v translate scale rotateRadians))

/-- The criterion value picked inside `findLargestShape`'s loop:
`useArea ? metrics.area : metrics.perimeter`. -/
def criterionValue (criterion : LargestCriterion) (m : ShapeMetrics) : ℝ :=
  if criterion = LargestCriterion.AREA then m.area else m.perimeter

/-- Loop state of `findLargestShape`: `largestShape`/`largestMetrics` (both
null together), `largestValue`, and the `ranked` array. -/
structure FlsState where
  best : Option (DrawableShape × ShapeMetrics)
  bestValue : ℝ
  ranked : List (String × ℝ)

/-- The scanning loop of `findLargestShape`; a thrown metrics error
propagates out of the whole method. -/
noncomputable def flsLoop (unit : MeasurementUnit) (criterion : LargestCriterion) :
    List DrawableShape → FlsState → Except String FlsState
  | [], st => Except.ok st
  | ds :: rest, st =>
    match calculateShapeMetrics ds.geometry unit with
    | Except.error e => Except.error e
    | Except.ok m =>
      let v := criterionValue criterion m
      let st' : FlsState :=
        if st.bestValue < v then
          { best := some (ds, m), bestValue := v, ranked := st.ranked ++ [(ds.id, v)] }
        else
          { best := st.best, bestValue := st.bestValue, ranked := st.ranked ++ [(ds.id, v)] }
      flsLoop unit criterion rest st'

/-- Pure image of `flsLoop` once every per-item metrics computation is known
to succeed: the same scan over the already-computed `(shape, metrics)` pairs. -/
def flsPure (criterion : LargestCriterion) :
    FlsState → List (DrawableShape × ShapeMetrics) → FlsState
  | st, [] => st
  | st, (ds, m) :: rest =>
    flsPure criterion
      (if st.bestValue < criterionValue criterion m then
        { best := some (ds, m), bestValue := criterionValue criterion m
          ranked := st.ranked ++ [(ds.id, criterionValue criterion m)] }
      else
        { best := st.best, bestValue := st.bestValue
          ranked := st.ranked ++ [(ds.id, criterionValue criterion m)] })
      rest

/-- Descending insertion used to model `ranked.sort((a, b) => b.value - a.value)`. -/
noncomputable def insertRankedDesc (x : String × ℝ) : List (String × ℝ) → List (String × ℝ)
  | [] => [x]
  | y :: ys => if x.2 > y.2 then x :: y :: ys else y :: insertRankedDesc x ys

/-- Model of `ranked` sorted by value descending. -/
noncomputable def sortRankedDesc : List (String × ℝ) → List (String × ℝ)
  | [] => []
  | x :: xs => insertRankedDesc x (sortRankedDesc xs)

/-- Source function `findLargestShape(collection, criterion, unit)` (service method):
throws `"Collection is empty"` on an empty collection, scans with the
`largestValue = -1` sentinel, throws `"No valid shapes found"` when no item
ever beat the sentinel, else returns the best item, its metrics, and the
ranking sorted by value descending. -/
noncomputable def findLargestShape (shapes : List DrawableShape)
    (criterion : LargestCriterion) (unit : MeasurementUnit) :
    Except String (DrawableShape × ShapeMetrics × List (String × ℝ)) :=
  if shapes.length = 0 then Except.error "Collection is empty"
  else
    match flsLoop unit criterion shapes { best := none, bestValue := -1, ranked := [] } with
    | Except.error e => Except.error e
    | Except.ok st =>
      match st.best with
      | none => Except.error "No valid shapes found"
      | some (ds, m) => Except.ok (ds, m, sortRankedDesc st.ranked)

/-- Modelled from the spec: the legacy simplified variant's scalene flag is
not part of the `TriangleInfo` wire type produced by `src/server.ts`; the
spec defines it by "Scalene: `= !isosceles`". -/
def isScalene (info : TriangleInfo) : Prop := ¬ info.isIsosceles

/-! ### Helper lemmas -/

/-- Evaluate `distance` when the sum of squares is a known perfect square. -/
lemma distance_eval {p q : Point} {d : ℝ} (hd : 0 ≤ d)
    (h : (p.x - q.x) * (p.x - q.x) + (p.y - q.y) * (p.y - q.y) = d * d) :
    distance p q = d := by
  unfold distance
  rw [h]
  exact Real.sqrt_mul_self hd

/-- On a non-degenerate input, `analyzeTriangle` succeeds and returns exactly
the classification record and the METERS metrics of the triangle. -/
lemma analyzeTriangle_ok (vA vB vC : Point)
    (h : ¬(distance vA vB + distance vB vC ≤ distance vC vA ∨
        distance vB vC + distance vC vA ≤ distance vA vB ∨
        distance vC vA + distance vA vB ≤ distance vB vC)) :
    analyzeTriangle vA vB vC = Except.ok
      ({ sideA := distance vA vB, sideB := distance vB vC, sideC := distance vC vA
         isEquilateral := |distance vA vB - distance vB vC| < epsilon ∧
           |distance vB vC - distance vC vA| < epsilon
         isIsosceles := (|distance vA vB - distance vB vC| < epsilon ∧
             |distance vB vC - distance vC vA| < epsilon) ∨
           |distance vA vB - distance vB vC| < epsilon ∨
           |distance vB vC - distance vC vA| < epsilon ∨
           |distance vC vA - distance vA vB| < epsilon
         isRightTriangle := isRightTriangle (distance vA vB) (distance vB vC)
           (distance vC vA) },
       { area := calculateTriangleArea (distance vA vB) (distance vB vC) (distance vC vA)
         perimeter := distance vA vB + distance vB vC + distance vC vA
         centroid := calculateCentroid [vA, vB, vC]
         boundingBox := calculateBoundingBox [vA, vB, vC] }) := by
  unfold analyzeTriangle
  rw [if_neg h]
  rfl

/-- Inversion: a successful `analyzeTriangle` pins every flag of the returned
`TriangleInfo` to its defining proposition over the computed side lengths. -/
lemma analyzeTriangle_ok_inv (vA vB vC : Point) (info : TriangleInfo) (m : ShapeMetrics)
    (h : analyzeTriangle vA vB vC = Except.ok (info, m)) :
    info.sideA = distance vA vB ∧ info.sideB = distance vB vC ∧
    info.sideC = distance vC vA ∧
    info.isEquilateral = (|distance vA vB - distance vB vC| < epsilon ∧
      |distance vB vC - distance vC vA| < epsilon) ∧
    info.isIsosceles = ((|distance vA vB - distance vB vC| < epsilon ∧
        |distance vB vC - distance vC vA| < epsilon) ∨
      |distance vA vB - distance vB vC| < epsilon ∨
      |distance vB vC - distance vC vA| < epsilon ∨
      |distance vC vA - distance vA vB| < epsilon) := by
  by_cases hd : distance vA vB + distance vB vC ≤ distance vC vA ∨
      distance vB vC + distance vC vA ≤ distance vA vB ∨
      distance vC vA + distance vA vB ≤ distance vB vC
  · unfold analyzeTriangle at h
    rw [if_pos hd] at h
    exact absurd h (by simp)
  · rw [analyzeTriangle_ok vA vB vC hd] at h
    rw [Except.ok.injEq, Prod.mk.injEq] at h
    rw [← h.1]
    exact ⟨rfl, rfl, rfl, rfl, rfl⟩

/-! ### Claim theorems -/

/-- C6: the per-point transform is scale, then rotate (CCW about the origin,
`x' = x·cosθ − y·sinθ`, `y' = x·sinθ + y·cosθ`), then translate, so the
translation component is neither rotated nor scaled. -/
theorem transformPoint_order (p translate : Point) (scale rotate : ℝ) :
    transformPoint p translate scale rotate
        = translatePoint (rotatePoint (scalePoint p scale) rotate) translate
    ∧ transformPoint p translate scale rotate
        = { x := (p.x * scale) * Real.cos rotate - (p.y * scale) * Real.sin rotate +
              translate.x
            y := (p.x * scale) * Real.sin rotate + (p.y * scale) * Real.cos rotate +
              translate.y } :=
  ⟨rfl, rfl⟩

/-- C7: transforming a rectangle yields again a rectangle whose width and
height are the originals multiplied by `scale` (independently of
`rotateRadians`), and whose only moved point is `topLeft`, transformed by the
per-point transform; the rectangle stays axis-aligned. -/
theorem transformShape_rectangle (topLeft translate : Point)
    (width height scale rotateRadians : ℝ) :
    transformShape (Shape.rectangle topLeft width height) translate scale rotateRadians
      = Shape.rectangle (transformPoint topLeft translate scale rotateRadians)
          (width * scale) (height * scale) :=
  rfl

/-- C8: for every shape and unit, `calculateShapeMetrics` applies the unit
conversion to area (factor squared) and perimeter (linear factor) only; the
centroid and bounding box are exactly those computed with METERS. -/
theorem calculateShapeMetrics_unit_conversion (shape : Shape) (unit : MeasurementUnit) :
    calculateShapeMetrics shape unit
      = (calculateShapeMetrics shape MeasurementUnit.METERS).map
          (fun m =>
            { area := convertArea m.area unit
              perimeter := convertDistance m.perimeter unit
              centroid := m.centroid
              boundingBox := m.boundingBox }) := by
  cases shape with
  | triangle vs =>
    rcases vs with _ | ⟨v0, _ | ⟨v1, _ | ⟨v2, _ | ⟨v3, rest⟩⟩⟩⟩ <;> rfl
  | circle c r => rfl
  | rectangle tl w h => rfl
  | polygon vs => rfl

/-- C9: `analyzeTriangle` fails with the degenerate-triangle error exactly
when some computed side length is `<=` the sum of the other two is violated
(non-strict comparison, no epsilon); in particular collinear points with
side lengths (1, 2, 3) fail. -/
theorem analyzeTriangle_degenerate_iff :
    (∀ vA vB vC : Point,
      analyzeTriangle vA vB vC = Except.error "Invalid triangle: points are collinear"
        ↔ (distance vA vB + distance vB vC ≤ distance vC vA ∨
            distance vB vC + distance vC vA ≤ distance vA vB ∨
            distance vC vA + distance vA vB ≤ distance vB vC))
    ∧ analyzeTriangle { x := 0, y := 0 } { x := 1, y := 0 } { x := 3, y := 0 }
        = Except.error "Invalid triangle: points are collinear" := by
  have main : ∀ vA vB vC : Point,
      analyzeTriangle vA vB vC = Except.error "Invalid triangle: points are collinear"
        ↔ (distance vA vB + distance vB vC ≤ distance vC vA ∨
            distance vB vC + distance vC vA ≤ distance vA vB ∨
            distance vC vA + distance vA vB ≤ distance vB vC) := by
    intro vA vB vC
    by_cases h : distance vA vB + distance vB vC ≤ distance vC vA ∨
        distance vB vC + distance vC vA ≤ distance vA vB ∨
        distance vC vA + distance vA vB ≤ distance vB vC
    · unfold analyzeTriangle
      rw [if_pos h]
      simp [h]
    · rw [analyzeTriangle_ok vA vB vC h]
      simp [h]
  refine ⟨main, ?_⟩
  rw [(main _ _ _)]
  have h1 : distance { x := 0, y := 0 } { x := 1, y := 0 } = 1 :=
    distance_eval (by norm_num) (by norm_num)
  have h2 : distance { x := 1, y := 0 } { x := 3, y := 0 } = 2 :=
    distance_eval (by norm_num) (by norm_num)
  have h3 : distance { x := 3, y := 0 } { x := 0, y := 0 } = 3 :=
    distance_eval (by norm_num) (by norm_num)
  rw [h1, h2, h3]
  norm_num

/-- C10: a polygon-variant shape with one or two vertices is not rejected:
its metrics computation succeeds with area 0, and perimeter, centroid and
bounding box computed over the given vertices. -/
theorem calculateShapeMetrics_small_polygon (vs : List Point) (unit : MeasurementUnit)
    (h : vs.length = 1 ∨ vs.length = 2) :
    calculateShapeMetrics (Shape.polygon vs) unit
      = Except.ok
          { area := 0
            perimeter := convertDistance (polygonPerimeter vs) unit
            centroid := calculateCentroid vs
            boundingBox := calculateBoundingBox vs } := by
  have hlt : vs.length < 3 := by rcases h with h | h <;> omega
  have harea : convertArea (calculatePolygonArea vs) unit = 0 := by
    rw [calculatePolygonArea, if_pos hlt]
    cases unit <;> simp [convertArea, squareMetersToSquareFeet]
  simp only [calculateShapeMetrics]
  rw [harea]

/-- Witness for C10 at the two-point polygon `[(0,0), (3,4)]`. -/
theorem calculateShapeMetrics_small_polygon_witness :
    (([{ x := 0, y := 0 }, { x := 3, y := 4 }] : List Point).length = 1 ∨
      ([{ x := 0, y := 0 }, { x := 3, y := 4 }] : List Point).length = 2)
    ∧ calculateShapeMetrics
        (Shape.polygon [{ x := 0, y := 0 }, { x := 3, y := 4 }]) MeasurementUnit.METERS
      = Except.ok
          { area := 0
            perimeter := convertDistance
              (polygonPerimeter [{ x := 0, y := 0 }, { x := 3, y := 4 }])
              MeasurementUnit.METERS
            centroid := calculateCentroid [{ x := 0, y := 0 }, { x := 3, y := 4 }]
            boundingBox := calculateBoundingBox [{ x := 0, y := 0 }, { x := 3, y := 4 }] } :=
  ⟨Or.inr rfl, calculateShapeMetrics_small_polygon _ _ (Or.inr rfl)⟩

/-- C2 (amended): on every valid triangle, `analyzeTriangle` reports
`isEquilateral` true if and only if the two pairwise side differences
`|sideA − sideB|` and `|sideB − sideC|` are both `< ε = 0.0001`; the third
difference `|sideC − sideA|` is not tested. -/
theorem analyzeTriangle_equilateral_iff (vA vB vC : Point) (info : TriangleInfo)
    (m : ShapeMetrics) (h : analyzeTriangle vA vB vC = Except.ok (info, m)) :
    info.isEquilateral ↔
      (|info.sideA - info.sideB| < epsilon ∧ |info.sideB - info.sideC| < epsilon) := by
  obtain ⟨hsa, hsb, hsc, heq, -⟩ := analyzeTriangle_ok_inv vA vB vC info m h
  rw [hsa, hsb, hsc, heq]

/-- Witness for C2 (amended) at the right triangle `(0,0), (3,0), (0,4)`. -/
theorem analyzeTriangle_equilateral_iff_witness :
    ∃ info m,
      analyzeTriangle { x := 0, y := 0 } { x := 3, y := 0 } { x := 0, y := 4 }
        = Except.ok (info, m)
      ∧ (info.isEquilateral ↔
          (|info.sideA - info.sideB| < epsilon ∧ |info.sideB - info.sideC| < epsilon)) := by
  have h1 : distance { x := 0, y := 0 } { x := 3, y := 0 } = 3 :=
    distance_eval (by norm_num) (by norm_num)
  have h2 : distance { x := 3, y := 0 } { x := 0, y := 4 } = 5 :=
    distance_eval (by norm_num) (by norm_num)
  have h3 : distance { x := 0, y := 4 } { x := 0, y := 0 } = 4 :=
    distance_eval (by norm_num) (by norm_num)
  have hval : ¬(distance { x := 0, y := 0 } { x := 3, y := 0 } +
        distance { x := 3, y := 0 } { x := 0, y := 4 }
        ≤ distance { x := 0, y := 4 } { x := 0, y := 0 } ∨
      distance { x := 3, y := 0 } { x := 0, y := 4 } +
        distance { x := 0, y := 4 } { x := 0, y := 0 }
        ≤ distance { x := 0, y := 0 } { x := 3, y := 0 } ∨
      distance { x := 0, y := 4 } { x := 0, y := 0 } +
        distance { x := 0, y := 0 } { x := 3, y := 0 }
        ≤ distance { x := 3, y := 0 } { x := 0, y := 4 }) := by
    rw [h1, h2, h3]
    norm_num
  have hok := analyzeTriangle_ok _ _ _ hval
  exact ⟨_, _, hok, analyzeTriangle_equilateral_iff _ _ _ _ _ hok⟩

/-- C2 counterexample: a valid triangle on which `analyzeTriangle` reports
`isEquilateral` although the third pairwise side difference `|sideC − sideA|`
is not `< ε`: sides are exactly `1`, `1.00009` and `1.00018`. -/
theorem analyzeTriangle_equilateral_two_diffs_cex :
    ∃ info m,
      analyzeTriangle { x := 0, y := 0 } { x := 1, y := 0 }
          { x := (1 + 1.00018 ^ 2 - 1.00009 ^ 2) / 2,
            y := Real.sqrt (1.00018 ^ 2 - ((1 + 1.00018 ^ 2 - 1.00009 ^ 2) / 2) ^ 2) }
        = Except.ok (info, m)
      ∧ info.isEquilateral
      ∧ ¬(|info.sideA - info.sideB| < epsilon ∧ |info.sideB - info.sideC| < epsilon ∧
          |info.sideC - info.sideA| < epsilon) := by
  set cx : ℝ := (1 + 1.00018 ^ 2 - 1.00009 ^ 2) / 2 with hcx
  set k : ℝ := 1.00018 ^ 2 - cx ^ 2 with hk
  have hk0 : (0 : ℝ) ≤ k := by rw [hk, hcx]; norm_num
  have hsq : Real.sqrt k * Real.sqrt k = k := Real.mul_self_sqrt hk0
  have h1 : distance { x := 0, y := 0 } { x := 1, y := 0 } = 1 :=
    distance_eval (by norm_num) (by norm_num)
  have h2 : distance { x := 1, y := 0 } { x := cx, y := Real.sqrt k } = 1.00009 := by
    apply distance_eval (by norm_num)
    show (1 - cx) * (1 - cx) + (0 - Real.sqrt k) * (0 - Real.sqrt k) = 1.00009 * 1.00009
    have hy : (0 - Real.sqrt k) * (0 - Real.sqrt k) = k := by
      rw [zero_sub, neg_mul_neg, hsq]
    rw [hy, hk, hcx]
    norm_num
  have h3 : distance { x := cx, y := Real.sqrt k } { x := 0, y := 0 } = 1.00018 := by
    apply distance_eval (by norm_num)
    show (cx - 0) * (cx - 0) + (Real.sqrt k - 0) * (Real.sqrt k - 0) = 1.00018 * 1.00018
    have hy : (Real.sqrt k - 0) * (Real.sqrt k - 0) = k := by
      rw [sub_zero, hsq]
    rw [hy, hk, hcx]
    norm_num
  have hval : ¬(distance { x := 0, y := 0 } { x := 1, y := 0 } +
        distance { x := 1, y := 0 } { x := cx, y := Real.sqrt k }
        ≤ distance { x := cx, y := Real.sqrt k } { x := 0, y := 0 } ∨
      distance { x := 1, y := 0 } { x := cx, y := Real.sqrt k } +
        distance { x := cx, y := Real.sqrt k } { x := 0, y := 0 }
        ≤ distance { x := 0, y := 0 } { x := 1, y := 0 } ∨
      distance { x := cx, y := Real.sqrt k } { x := 0, y := 0 } +
        distance { x := 0, y := 0 } { x := 1, y := 0 }
        ≤ distance { x := 1, y := 0 } { x := cx, y := Real.sqrt k }) := by
    rw [h1, h2, h3]
    norm_num
  have hok := analyzeTriangle_ok _ _ _ hval
  refine ⟨_, _, hok, ?_, ?_⟩
  · show |distance { x := 0, y := 0 } { x := 1, y := 0 } -
        distance { x := 1, y := 0 } { x := cx, y := Real.sqrt k }| < epsilon ∧
      |distance { x := 1, y := 0 } { x := cx, y := Real.sqrt k } -
        distance { x := cx, y := Real.sqrt k } { x := 0, y := 0 }| < epsilon
    rw [h1, h2, h3]
    constructor <;> · rw [abs_sub_lt_iff, epsilon]; constructor <;> norm_num
  · show ¬(|distance { x := 0, y := 0 } { x := 1, y := 0 } -
        distance { x := 1, y := 0 } { x := cx, y := Real.sqrt k }| < epsilon ∧
      |distance { x := 1, y := 0 } { x := cx, y := Real.sqrt k } -
        distance { x := cx, y := Real.sqrt k } { x := 0, y := 0 }| < epsilon ∧
      |distance { x := cx, y := Real.sqrt k } { x := 0, y := 0 } -
        distance { x := 0, y := 0 } { x := 1, y := 0 }| < epsilon)
    rw [h1, h2, h3]
    rintro ⟨-, -, hc⟩
    rw [abs_sub_lt_iff, epsilon] at hc
    have := hc.1
    norm_num at this

/-- C3: on every input on which classification succeeds, the flags satisfy
`isEquilateral ⟹ isIsosceles` and `isScalene ⟺ ¬ isIsosceles` (the scalene
flag, absent from the wire `TriangleInfo`, is the spec-defined negation of
isosceles). -/
theorem analyzeTriangle_flag_invariants (vA vB vC : Point) (info : TriangleInfo)
    (m : ShapeMetrics) (h : analyzeTriangle vA vB vC = Except.ok (info, m)) :
    (info.isEquilateral → info.isIsosceles) ∧ (isScalene info ↔ ¬ info.isIsosceles) := by
  obtain ⟨-, -, -, heq, hiso⟩ := analyzeTriangle_ok_inv vA vB vC info m h
  constructor
  · intro he
    rw [hiso]
    exact Or.inl (heq ▸ he)
  · exact Iff.rfl

/-- Witness for C3 at the right triangle `(0,0), (4,0), (0,3)`. -/
theorem analyzeTriangle_flag_invariants_witness :
    ∃ info m,
      analyzeTriangle { x := 0, y := 0 } { x := 4, y := 0 } { x := 0, y := 3 }
        = Except.ok (info, m)
      ∧ (info.isEquilateral → info.isIsosceles) ∧ (isScalene info ↔ ¬ info.isIsosceles) := by
  have h1 : distance { x := 0, y := 0 } { x := 4, y := 0 } = 4 :=
    distance_eval (by norm_num) (by norm_num)
  have h2 : distance { x := 4, y := 0 } { x := 0, y := 3 } = 5 :=
    distance_eval (by norm_num) (by norm_num)
  have h3 : distance { x := 0, y := 3 } { x := 0, y := 0 } = 3 :=
    distance_eval (by norm_num) (by norm_num)
  have hval : ¬(distance { x := 0, y := 0 } { x := 4, y := 0 } +
        distance { x := 4, y := 0 } { x := 0, y := 3 }
        ≤ distance { x := 0, y := 3 } { x := 0, y := 0 } ∨
      distance { x := 4, y := 0 } { x := 0, y := 3 } +
        distance { x := 0, y := 3 } { x := 0, y := 0 }
        ≤ distance { x := 0, y := 0 } { x := 4, y := 0 } ∨
      distance { x := 0, y := 3 } { x := 0, y := 0 } +
        distance { x := 0, y := 0 } { x := 4, y := 0 }
        ≤ distance { x := 4, y := 0 } { x := 0, y := 3 }) := by
    rw [h1, h2, h3]
    norm_num
  have hok := analyzeTriangle_ok _ _ _ hval
  exact ⟨_, _, hok, analyzeTriangle_flag_invariants _ _ _ _ _ hok⟩

/-- The batch loop, run from any accumulator, appends one result per item in
input order and adds exactly the successful areas. -/
lemma batch_foldl_spec (u : MeasurementUnit) (shapes : List DrawableShape) :
    ∀ acc : List ShapeAnalysisResult × ℝ,
      shapes.foldl (batchStep u) acc
        = (acc.1 ++ shapes.map (analyzeOne u),
           acc.2 + (shapes.map (fun ds =>
             match calculateShapeMetrics ds.geometry u with
             | Except.ok m => m.area
             | Except.error _ => 0)).sum) := by
  induction shapes with
  | nil => intro acc; simp
  | cons ds rest ih =>
    intro acc
    rw [List.foldl_cons, List.map_cons, List.map_cons, List.sum_cons, ih]
    unfold batchStep analyzeOne
    cases hm : calculateShapeMetrics ds.geometry u with
    | ok m => simp [hm, add_assoc]
    | error e => simp [hm]

/-- C4: `batchAnalyze` returns exactly one result per input item, in input
order, each item evaluated in isolation (a failing item yields an inline
error result with empty metrics and does not disturb the others);
`totalArea` sums the areas of exactly the successful items and `shapeCount`
is the total input count. -/
theorem batchAnalyze_spec (shapes : List DrawableShape) (u : MeasurementUnit) :
    (batchAnalyze shapes u).results = shapes.map (analyzeOne u)
    ∧ (batchAnalyze shapes u).totalArea
        = (shapes.map (fun ds =>
            match calculateShapeMetrics ds.geometry u with
            | Except.ok m => m.area
            | Except.error _ => 0)).sum
    ∧ (batchAnalyze shapes u).shapeCount = shapes.length := by
  unfold batchAnalyze
  rw [batch_foldl_spec]
  simp

lemma criterionValue_AREA (m : ShapeMetrics) :
    criterionValue LargestCriterion.AREA m = m.area := rfl

lemma criterionValue_PERIMETER (m : ShapeMetrics) :
    criterionValue LargestCriterion.PERIMETER m = m.perimeter := rfl

/-- When every per-item metrics computation succeeds, the effectful scan of
`findLargestShape` coincides with the pure scan over the `(shape, metrics)`
pairs. -/
lemma flsLoop_eq_pure (u : MeasurementUnit) (crit : LargestCriterion) :
    ∀ {shapes : List DrawableShape} {ms : List ShapeMetrics},
      List.Forall₂ (fun ds m => calculateShapeMetrics ds.geometry u = Except.ok m)
        shapes ms →
      ∀ st, flsLoop u crit shapes st = Except.ok (flsPure crit st (shapes.zip ms)) := by
  intro shapes ms h
  induction h with
  | nil => intro st; rfl
  | cons hdm htail ih =>
    intro st
    simp only [flsLoop, List.zip_cons_cons, flsPure]
    rw [hdm]
    exact ih _

/-- If no remaining value beats the running best, the scan keeps its best
entry and best value. -/
lemma flsPure_best_of_le (crit : LargestCriterion) :
    ∀ (es : List (DrawableShape × ShapeMetrics)) (st : FlsState),
      (∀ e ∈ es, criterionValue crit e.2 ≤ st.bestValue) →
      (flsPure crit st es).best = st.best ∧ (flsPure crit st es).bestValue = st.bestValue := by
  intro es
  induction es with
  | nil => intro st _; exact ⟨rfl, rfl⟩
  | cons e rest ih =>
    intro st h
    obtain ⟨ds, m⟩ := e
    have hv : criterionValue crit m ≤ st.bestValue := h (ds, m) (by simp)
    simp only [flsPure]
    rw [if_neg (not_lt.mpr hv)]
    exact ih _ (fun e' he' => h e' (List.mem_cons_of_mem _ he'))

/-- First-strict-maximum characterization of the scan: if every entry before
`e` has a strictly smaller value, every entry after `e` has a value at most
`e`'s, and `e`'s value beats the incoming best value, then the scan ends
with `e` as the best entry. -/
lemma flsPure_best_append (crit : LargestCriterion) :
    ∀ (l₁ : List (DrawableShape × ShapeMetrics)) (e : DrawableShape × ShapeMetrics)
      (l₂ : List (DrawableShape × ShapeMetrics)) (st : FlsState),
      (∀ e' ∈ l₁, criterionValue crit e'.2 < criterionValue crit e.2) →
      (∀ e' ∈ l₂, criterionValue crit e'.2 ≤ criterionValue crit e.2) →
      st.bestValue < criterionValue crit e.2 →
      (flsPure crit st (l₁ ++ e :: l₂)).best = some e := by
  intro l₁
  induction l₁ with
  | nil =>
    intro e l₂ st _ h₂ hlt
    obtain ⟨ds, m⟩ := e
    simp only [List.nil_append, flsPure]
    rw [if_pos hlt]
    exact (flsPure_best_of_le crit l₂ _ (fun e' he' => h₂ e' he')).1
  | cons a l₁ ih =>
    intro e l₂ st h₁ h₂ hlt
    obtain ⟨ds, m⟩ := a
    have ha : criterionValue crit m < criterionValue crit e.2 := h₁ (ds, m) (by simp)
    simp only [List.cons_append, flsPure]
    by_cases hc : st.bestValue < criterionValue crit m
    · rw [if_pos hc]
      exact ih e l₂ _ (fun e' he' => h₁ e' (List.mem_cons_of_mem _ he')) h₂ ha
    · rw [if_neg hc]
      exact ih e l₂ _ (fun e' he' => h₁ e' (List.mem_cons_of_mem _ he')) h₂ hlt

/-- If some entry beats the running best value (or a best entry already
exists), the scan ends with a best entry. -/
lemma flsPure_best_isSome (crit : LargestCriterion) :
    ∀ (es : List (DrawableShape × ShapeMetrics)) (st : FlsState),
      st.best.isSome = true ∨ (∃ e ∈ es, st.bestValue < criterionValue crit e.2) →
      ((flsPure crit st es).best).isSome = true := by
  intro es
  induction es with
  | nil =>
    intro st h
    rcases h with h | ⟨e, he, -⟩
    · exact h
    · exact absurd he (List.not_mem_nil e)
  | cons a rest ih =>
    intro st h
    obtain ⟨ds, m⟩ := a
    simp only [flsPure]
    by_cases hc : st.bestValue < criterionValue crit m
    · rw [if_pos hc]
      exact ih _ (Or.inl rfl)
    · rw [if_neg hc]
      apply ih
      rcases h with h | ⟨e, he, hlt⟩
      · exact Or.inl h
      · rcases List.mem_cons.mp he with rfl | he'
        · exact absurd hlt hc
        · exact Or.inr ⟨e, he', hlt⟩

/-- A member of the metrics list always pairs with some shape in the zip. -/
lemma mem_zip_of_forall₂ {R : DrawableShape → ShapeMetrics → Prop} :
    ∀ {shapes : List DrawableShape} {ms : List ShapeMetrics},
      List.Forall₂ R shapes ms → ∀ {m : ShapeMetrics}, m ∈ ms →
      ∃ ds, (ds, m) ∈ shapes.zip ms := by
  intro shapes ms h
  induction h with
  | nil => intro m hm; exact absurd hm (List.not_mem_nil m)
  | @cons ds m' shapes' ms' hdm htail ih =>
    intro m hm
    rcases List.mem_cons.mp hm with rfl | hm'
    · exact ⟨ds, by simp⟩
    · obtain ⟨ds', hds'⟩ := ih hm'
      exact ⟨ds', by simpa using Or.inr hds'⟩

/-- Evaluation of `findLargestShape` through the pure scan, for a non-empty
collection all of whose metrics computations succeed. -/
lemma findLargestShape_eq (shapes : List DrawableShape) (ms : List ShapeMetrics)
    (crit : LargestCriterion) (u : MeasurementUnit)
    (hms : List.Forall₂ (fun ds m => calculateShapeMetrics ds.geometry u = Except.ok m)
      shapes ms)
    (hne : ¬ shapes.length = 0) :
    findLargestShape shapes crit u
      = match (flsPure crit { best := none, bestValue := -1, ranked := [] }
            (shapes.zip ms)).best with
        | none => Except.error "No valid shapes found"
        | some (ds, m) =>
          Except.ok (ds, m,
            sortRankedDesc (flsPure crit { best := none, bestValue := -1, ranked := [] }
              (shapes.zip ms)).ranked) := by
  unfold findLargestShape
  rw [if_neg hne, flsLoop_eq_pure u crit hms]

/-- C1 (amended): for a non-empty collection whose every metrics computation
succeeds, the generic `"No valid shapes found"` branch is not taken provided
some criterion value beats the `-1` sentinel the scan starts from (so in
particular whenever some value is nonnegative); with an all-`≤ -1` value
profile (possible with negative dimensions, or a negative Custom factor under
PERIMETER) the branch is reachable. -/
theorem findLargestShape_ok_of_sentinel_beaten (shapes : List DrawableShape)
    (ms : List ShapeMetrics) (crit : LargestCriterion) (u : MeasurementUnit)
    (hms : List.Forall₂ (fun ds m => calculateShapeMetrics ds.geometry u = Except.ok m)
      shapes ms)
    (hne : ¬ shapes.length = 0)
    (hex : ∃ m ∈ ms, -1 < criterionValue crit m) :
    ∃ r, findLargestShape shapes crit u = Except.ok r := by
  rw [findLargestShape_eq shapes ms crit u hms hne]
  obtain ⟨m, hm, hlt⟩ := hex
  obtain ⟨ds, hmem⟩ := mem_zip_of_forall₂ hms hm
  have hsome := flsPure_best_isSome crit (shapes.zip ms)
    { best := none, bestValue := -1, ranked := [] } (Or.inr ⟨(ds, m), hmem, hlt⟩)
  obtain ⟨⟨ds', m'⟩, hbest⟩ := Option.isSome_iff_exists.mp hsome
  rw [hbest]
  exact ⟨_, rfl⟩

/-- Witness for C1 (amended): a single rectangle of area 2 in METERS. -/
theorem findLargestShape_ok_of_sentinel_beaten_witness :
    ∃ r, findLargestShape [{ id := "a", geometry := Shape.rectangle { x := 0, y := 0 } 1 2 }]
        LargestCriterion.AREA MeasurementUnit.METERS = Except.ok r := by
  refine findLargestShape_ok_of_sentinel_beaten _
    [{ area := convertArea (1 * 2) MeasurementUnit.METERS
       perimeter := convertDistance (2 * (1 + 2)) MeasurementUnit.METERS
       centroid := calculateCentroid [{ x := 0, y := 0 }, { x := 0 + 1, y := 0 },
         { x := 0 + 1, y := 0 + 2 }, { x := 0, y := 0 + 2 }]
       boundingBox := calculateBoundingBox [{ x := 0, y := 0 }, { x := 0 + 1, y := 0 },
         { x := 0 + 1, y := 0 + 2 }, { x := 0, y := 0 + 2 }] }]
    LargestCriterion.AREA MeasurementUnit.METERS
    (List.Forall₂.cons rfl List.Forall₂.nil) (by simp) ⟨_, List.mem_cons_self _ _, ?_⟩
  norm_num [criterionValue_AREA, convertArea]

/-- C1 counterexample: a singleton collection holding a well-formed unit
square, ranked by PERIMETER in a Custom unit with factor −1, reaches the
generic `"No valid shapes found"` error: the converted perimeter is −4, which
never beats the `-1` sentinel. -/
theorem findLargestShape_generic_error_cex :
    findLargestShape [{ id := "sq", geometry := Shape.rectangle { x := 0, y := 0 } 1 1 }]
      LargestCriterion.PERIMETER (MeasurementUnit.custom (-1))
      = Except.error "No valid shapes found" := by
  rw [findLargestShape_eq
    [{ id := "sq", geometry := Shape.rectangle { x := 0, y := 0 } 1 1 }]
    [{ area := convertArea (1 * 1) (MeasurementUnit.custom (-1))
       perimeter := convertDistance (2 * (1 + 1)) (MeasurementUnit.custom (-1))
       centroid := calculateCentroid [{ x := 0, y := 0 }, { x := 0 + 1, y := 0 },
         { x := 0 + 1, y := 0 + 1 }, { x := 0, y := 0 + 1 }]
       boundingBox := calculateBoundingBox [{ x := 0, y := 0 }, { x := 0 + 1, y := 0 },
         { x := 0 + 1, y := 0 + 1 }, { x := 0, y := 0 + 1 }] }]
    LargestCriterion.PERIMETER (MeasurementUnit.custom (-1))
    (List.Forall₂.cons rfl List.Forall₂.nil) (by simp)]
  have hbest : (flsPure LargestCriterion.PERIMETER
      { best := none, bestValue := -1, ranked := [] }
      ([{ id := "sq", geometry := Shape.rectangle { x := 0, y := 0 } 1 1 }].zip
        [{ area := convertArea (1 * 1) (MeasurementUnit.custom (-1))
           perimeter := convertDistance (2 * (1 + 1)) (MeasurementUnit.custom (-1))
           centroid := calculateCentroid [{ x := 0, y := 0 }, { x := 0 + 1, y := 0 },
             { x := 0 + 1, y := 0 + 1 }, { x := 0, y := 0 + 1 }]
           boundingBox := calculateBoundingBox [{ x := 0, y := 0 }, { x := 0 + 1, y := 0 },
             { x := 0 + 1, y := 0 + 1 }, { x := 0, y := 0 + 1 }] }])).best = none := by
    norm_num [flsPure, criterionValue_PERIMETER, convertDistance]
  rw [hbest]

/-- C5 (amended): iterate in input order, replace the best only on a strict
improvement, starting from the `-1` sentinel: whenever the collection's
metrics all succeed and splits as `l₁ ++ (ds, m) :: l₂` with every value in
`l₁` strictly below `m`'s and every value in `l₂` at most `m`'s (so `ds` is
the first shape attaining the maximum), and `m`'s value beats the sentinel,
`findLargestShape` returns `ds` with metrics `m` — on ties, the first-seen
shape wins. -/
theorem findLargestShape_first_max (shapes : List DrawableShape)
    (ms : List ShapeMetrics) (crit : LargestCriterion) (u : MeasurementUnit)
    (l₁ l₂ : List (DrawableShape × ShapeMetrics)) (ds : DrawableShape) (m : ShapeMetrics)
    (hms : List.Forall₂ (fun ds m => calculateShapeMetrics ds.geometry u = Except.ok m)
      shapes ms)
    (hsplit : shapes.zip ms = l₁ ++ (ds, m) :: l₂)
    (hbefore : ∀ e ∈ l₁, criterionValue crit e.2 < criterionValue crit m)
    (hafter : ∀ e ∈ l₂, criterionValue crit e.2 ≤ criterionValue crit m)
    (hsent : -1 < criterionValue crit m) :
    ∃ ranked, findLargestShape shapes crit u = Except.ok (ds, m, ranked) := by
  have hne : ¬ shapes.length = 0 := by
    intro h0
    rw [List.length_eq_zero] at h0
    subst h0
    simp at hsplit
  rw [findLargestShape_eq shapes ms crit u hms hne]
  have hbest : (flsPure crit { best := none, bestValue := -1, ranked := [] }
      (shapes.zip ms)).best = some (ds, m) := by
    rw [hsplit]
    exact flsPure_best_append crit l₁ (ds, m) l₂ _ hbefore hafter hsent
  rw [hbest]
  exact ⟨_, rfl⟩

/-- Witness for C5 (amended): two rectangles of equal area 6; the first one
in input order is returned. -/
theorem findLargestShape_first_max_witness :
    ∃ ranked,
      findLargestShape
        [{ id := "r1", geometry := Shape.rectangle { x := 0, y := 0 } 2 3 },
         { id := "r2", geometry := Shape.rectangle { x := 10, y := 0 } 3 2 }]
        LargestCriterion.AREA MeasurementUnit.METERS
      = Except.ok ({ id := "r1", geometry := Shape.rectangle { x := 0, y := 0 } 2 3 },
          { area := convertArea (2 * 3) MeasurementUnit.METERS
            perimeter := convertDistance (2 * (2 + 3)) MeasurementUnit.METERS
            centroid := calculateCentroid [{ x := 0, y := 0 }, { x := 0 + 2, y := 0 },
              { x := 0 + 2, y := 0 + 3 }, { x := 0, y := 0 + 3 }]
            boundingBox := calculateBoundingBox [{ x := 0, y := 0 }, { x := 0 + 2, y := 0 },
              { x := 0 + 2, y := 0 + 3 }, { x := 0, y := 0 + 3 }] },
          ranked) := by
  refine findLargestShape_first_max _
    [{ area := convertArea (2 * 3) MeasurementUnit.METERS
       perimeter := convertDistance (2 * (2 + 3)) MeasurementUnit.METERS
       centroid := calculateCentroid [{ x := 0, y := 0 }, { x := 0 + 2, y := 0 },
         { x := 0 + 2, y := 0 + 3 }, { x := 0, y := 0 + 3 }]
       boundingBox := calculateBoundingBox [{ x := 0, y := 0 }, { x := 0 + 2, y := 0 },
         { x := 0 + 2, y := 0 + 3 }, { x := 0, y := 0 + 3 }] },
     { area := convertArea (3 * 2) MeasurementUnit.METERS
       perimeter := convertDistance (2 * (3 + 2)) MeasurementUnit.METERS
       centroid := calculateCentroid [{ x := 10, y := 0 }, { x := 10 + 3, y := 0 },
         { x := 10 + 3, y := 0 + 2 }, { x := 10, y := 0 + 2 }]
       boundingBox := calculateBoundingBox [{ x := 10, y := 0 }, { x := 10 + 3, y := 0 },
         { x := 10 + 3, y := 0 + 2 }, { x := 10, y := 0 + 2 }] }]
    LargestCriterion.AREA MeasurementUnit.METERS []
    [({ id := "r2", geometry := Shape.rectangle { x := 10, y := 0 } 3 2 },
      { area := convertArea (3 * 2) MeasurementUnit.METERS
        perimeter := convertDistance (2 * (3 + 2)) MeasurementUnit.METERS
        centroid := calculateCentroid [{ x := 10, y := 0 }, { x := 10 + 3, y := 0 },
          { x := 10 + 3, y := 0 + 2 }, { x := 10, y := 0 + 2 }]
        boundingBox := calculateBoundingBox [{ x := 10, y := 0 }, { x := 10 + 3, y := 0 },
          { x := 10 + 3, y := 0 + 2 }, { x := 10, y := 0 + 2 }] })] _ _
    (List.Forall₂.cons rfl (List.Forall₂.cons rfl List.Forall₂.nil)) rfl
    (by simp) ?_ ?_
  · intro e he
    rw [List.mem_singleton] at he
    subst he
    norm_num [criterionValue_AREA, convertArea]
  · norm_num [criterionValue_AREA, convertArea]

/-- C5 counterexample: two well-formed unit squares tie on the maximal
criterion value (converted perimeter −4 each, Custom factor −1), yet
`findLargestShape` does not return the first of them — it throws the generic
error, because the tied maximum never beats the `-1` sentinel. -/
theorem findLargestShape_tie_cex :
    (∃ ma mb,
      calculateShapeMetrics (Shape.rectangle { x := 0, y := 0 } 1 1)
          (MeasurementUnit.custom (-1)) = Except.ok ma
      ∧ calculateShapeMetrics (Shape.rectangle { x := 5, y := 5 } 1 1)
          (MeasurementUnit.custom (-1)) = Except.ok mb
      ∧ criterionValue LargestCriterion.PERIMETER ma
          = criterionValue LargestCriterion.PERIMETER mb)
    ∧ findLargestShape
        [{ id := "a", geometry := Shape.rectangle { x := 0, y := 0 } 1 1 },
         { id := "b", geometry := Shape.rectangle { x := 5, y := 5 } 1 1 }]
        LargestCriterion.PERIMETER (MeasurementUnit.custom (-1))
      = Except.error "No valid shapes found" := by
  constructor
  · exact ⟨_, _, rfl, rfl, rfl⟩
  · rw [findLargestShape_eq
      [{ id := "a", geometry := Shape.rectangle { x := 0, y := 0 } 1 1 },
       { id := "b", geometry := Shape.rectangle { x := 5, y := 5 } 1 1 }]
      [{ area := convertArea (1 * 1) (MeasurementUnit.custom (-1))
         perimeter := convertDistance (2 * (1 + 1)) (MeasurementUnit.custom (-1))
         centroid := calculateCentroid [{ x := 0, y := 0 }, { x := 0 + 1, y := 0 },
           { x := 0 + 1, y := 0 + 1 }, { x := 0, y := 0 + 1 }]
         boundingBox := calculateBoundingBox [{ x := 0, y := 0 }, { x := 0 + 1, y := 0 },
           { x := 0 + 1, y := 0 + 1 }, { x := 0, y := 0 + 1 }] },
       { area := convertArea (1 * 1) (MeasurementUnit.custom (-1))
         perimeter := convertDistance (2 * (1 + 1)) (MeasurementUnit.custom (-1))
         centroid := calculateCentroid [{ x := 5, y := 5 }, { x := 5 + 1, y := 5 },
           { x := 5 + 1, y := 5 + 1 }, { x := 5, y := 5 + 1 }]
         boundingBox := calculateBoundingBox [{ x := 5, y := 5 }, { x := 5 + 1, y := 5 },
           { x := 5 + 1, y := 5 + 1 }, { x := 5, y := 5 + 1 }] }]
      LargestCriterion.PERIMETER (MeasurementUnit.custom (-1))
      (List.Forall₂.cons rfl (List.Forall₂.cons rfl List.Forall₂.nil)) (by simp)]
    have hbest : (flsPure LargestCriterion.PERIMETER
        { best := none, bestValue := -1, ranked := [] }
        ([{ id := "a", geometry := Shape.rectangle { x := 0, y := 0 } 1 1 },
          { id := "b", geometry := Shape.rectangle { x := 5, y := 5 } 1 1 }].zip
          [{ area := convertArea (1 * 1) (MeasurementUnit.custom (-1))
             perimeter := convertDistance (2 * (1 + 1)) (MeasurementUnit.custom (-1))
             centroid := calculateCentroid [{ x := 0, y := 0 }, { x := 0 + 1, y := 0 },
               { x := 0 + 1, y := 0 + 1 }, { x := 0, y := 0 + 1 }]
             boundingBox := calculateBoundingBox [{ x := 0, y := 0 }, { x := 0 + 1, y := 0 },
               { x := 0 + 1, y := 0 + 1 }, { x := 0, y := 0 + 1 }] },
           { area := convertArea (1 * 1) (MeasurementUnit.custom (-1))
             perimeter := convertDistance (2 * (1 + 1)) (MeasurementUnit.custom (-1))
             centroid := calculateCentroid [{ x := 5, y := 5 }, { x := 5 + 1, y := 5 },
               { x := 5 + 1, y := 5 + 1 }, { x := 5, y := 5 + 1 }]
             boundingBox := calculateBoundingBox [{ x := 5, y := 5 }, { x := 5 + 1, y := 5 },
               { x := 5 + 1, y := 5 + 1 }, { x := 5, y := 5 + 1 }] }])).best = none := by
      norm_num [flsPure, criterionValue_PERIMETER, convertDistance]
    rw [hbest]

end

end GeometrySrv
